import Mathlib

/-!
Verification development for the sandboxed file-storage subsystem of the NEXZA
repository (`backend/filesystem_manager.py`, class `FileSystemManager`).

The Python class is shallowly embedded: its in-memory state (content cache,
checksum map, operation metrics, access log) together with the portion of the
filesystem it owns (files, directories) form one record `FMState`; every public
operation becomes a total Lean function from the state (plus the call's
arguments and the current clock value) to a result-and-state pair.

Modelling conventions:
- Paths are strings; `os.path.join` / `os.path.abspath` / `os.path.normpath` /
  `os.path.basename` / `os.path.dirname` / `os.path.relpath` are reimplemented
  for POSIX paths (the base directory is absolute, so `abspath` and `normpath`
  agree on the joined path).
- Clock readings (`datetime.now()`, measured in seconds) enter each operation
  as an explicit `now : Nat` argument; version and archive names embed
  `toString now` where the source embeds a formatted timestamp.
- The SHA-256 digest of `hashlib` is library code outside the repository, so
  the development is parametric in the digest function
  `hash : FContent -> String`; `modelHash` is one concrete instance used for
  closed evaluations.
- Python's two synchronized dicts `_file_cache` / `_cache_access_times` are
  kept as one association list of `(path, (content, accessTime))`: the source
  inserts and deletes the two keys together in every code path.
- The UTF-8 codec of `open(...)` is stdlib code; it is modelled at ASCII
  granularity (`decodeReplace`, `decodeStrict`), which is exact for the ASCII
  contents the claims exercise.
- Logging side effects (`logs/security.log`, the rotating operations log) and
  wall-clock durations fed to `_track_operation` are outside the model; the
  metric record keeps `count` and `errors`, the two fields the claims are
  about.
- Directory enumeration and `os.stat` metadata for `list_files` enter as an
  oracle argument (`DirLookup`), since `os.listdir` order and stat timestamps
  are environment-supplied.
-/

namespace NexzaFS

/-! ## String primitives

Structurally recursive counterparts of the stdlib string operations the
source relies on (`str.startswith`, `str.endswith`, `str.lower`,
`str.split('/')`, lexicographic comparison), so that every definition in the
development evaluates inside the kernel. -/

/-- `s.startswith(pre)`. -/
def strStarts (s pre : String) : Bool :=
  pre.toList.isPrefixOf s.toList

/-- `s.endswith(suf)`. -/
def strEnds (s suf : String) : Bool :=
  suf.toList.isSuffixOf s.toList

/-- `s.lower()` (ASCII case folding, which covers every string the source
compares). -/
def lowerStr (s : String) : String :=
  String.mk (s.toList.map Char.toLower)

/-- Split a character list on `'/'`. -/
def splitSlashChars : List Char → List (List Char)
  | [] => [[]]
  | c :: cs =>
      let r := splitSlashChars cs
      if c = '/' then [] :: r else (c :: r.headD []) :: r.tail

/-- `s.split('/')`, the only separator the POSIX path helpers use. -/
def splitSlash (s : String) : List String :=
  (splitSlashChars s.toList).map String.mk

/-- Python's code-point comparison `s <= t` on character lists. -/
def charListLe : List Char → List Char → Bool
  | [], _ => true
  | _ :: _, [] => false
  | a :: as_, b :: bs => if a < b then true else if a = b then charListLe as_ bs else false

/-! ## Path helpers (POSIX semantics of os.path) -/

/-- Case-insensitive substring containment, modelling
`re.search(pattern, path, re.IGNORECASE)` for the literal patterns of
`_is_path_safe` (after unescaping, every pattern in the list is a plain
substring). -/
def containsCI (needle hay : String) : Bool :=
  ((hay.toList.map Char.toLower).tails).any
    (fun t => (needle.toList.map Char.toLower).isPrefixOf t)

/-- `os.path.join(base, p)` for one relative-or-absolute component. -/
def pyJoin (base p : String) : String :=
  if strStarts p "/" then p else base ++ "/" ++ p

/-- Segment normalisation of `posixpath.normpath` for an absolute path:
empty and `.` segments are dropped, `..` pops the previous segment (or is
dropped at the root). -/
def normSegs (segs : List String) : List String :=
  segs.foldl
    (fun acc c =>
      if c = "" || c = "." then acc
      else if c = ".." then acc.dropLast
      else acc ++ [c])
    []

/-- `os.path.abspath(os.path.join(base, p))` for an absolute `base`; this
coincides with `os.path.normpath(os.path.join(base, p))` used by the
operations, since the joined path is already absolute. -/
def abspathJoin (base p : String) : String :=
  "/" ++ String.intercalate "/" (normSegs (splitSlash (pyJoin base p)))

/-- The absolute path an operation works on:
`os.path.normpath(os.path.join(self.base_dir, filename))`. -/
def resolvePath (base p : String) : String :=
  abspathJoin base p

/-- `os.path.basename` for POSIX paths. -/
def pyBasename (p : String) : String :=
  (splitSlash p).getLastD ""

/-- `os.path.dirname` for an absolute POSIX path. -/
def pyDirname (p : String) : String :=
  "/" ++ String.intercalate "/" (((splitSlash p).dropLast).filter (fun c => c ≠ ""))

/-- `os.path.relpath(path, start)` for normalised absolute inputs. -/
def relpath (path start : String) : String :=
  let ps := (splitSlash path).filter (fun c => c ≠ "" && c ≠ ".")
  let ss := (splitSlash start).filter (fun c => c ≠ "" && c ≠ ".")
  let rec common : List String → List String → Nat
    | a :: as_, b :: bs => if a = b then common as_ bs + 1 else 0
    | _, _ => 0
  let i := common ps ss
  let segs := List.replicate (ss.length - i) ".." ++ ps.drop i
  if segs = [] then "." else String.intercalate "/" segs

/-- The extension of `os.path.splitext(f)[1]`: everything from the last dot,
unless every character before that dot is itself a dot (so `.env` has no
extension). -/
def splitextExt (f : String) : String :=
  let cs := f.toList
  let idxs := (List.range cs.length).filter (fun i => cs.getD i ' ' = '.')
  match idxs.getLast? with
  | none => ""
  | some i =>
      if (List.range i).all (fun j => cs.getD j ' ' = '.') then ""
      else String.mk (cs.drop i)

/-! ## Path validation (`_is_path_safe`) -/

/-- The denylist of `_is_path_safe`; each regex in the source is a literal
string once the escapes are removed, searched case-insensitively. -/
def suspiciousPatterns : List String :=
  ["../../..", "..\\..\\..", "/etc/", "C:\\Windows", "/proc/", ".git/", ".env"]

/-- `FileSystemManager._is_path_safe`: the resolved absolute path must start
with the base directory string, the raw input must avoid the denylist, and the
final segment must not be a hidden file outside the two whitelisted names.
The security-log side effect of a rejection is outside the model. -/
def is_path_safe (base path : String) : Bool :=
  let requested := abspathJoin base path
  if !(strStarts requested base) then false
  else if suspiciousPatterns.any (fun pat => containsCI pat path) then false
  else
    let filename := pyBasename path
    if strStarts filename "." && !(filename == ".gitignore" || filename == ".env.example") then
      false
    else true

/-! ## Data model -/

/-- Content of a stored file: text written through `write_file` or raw bytes
written through `write_binary_file` (bytes as `Nat`s below 256). -/
inductive FContent where
  | text (s : String)
  | bin (b : List Nat)
deriving DecidableEq, Repr

/-- `open(..., encoding='utf-8', errors='replace')` at ASCII granularity:
bytes ≥ 128 become the replacement character. -/
def decodeReplace (b : List Nat) : String :=
  String.mk (b.map (fun n => if n < 128 then Char.ofNat n else Char.ofNat 65533))

/-- Strict UTF-8 decoding (`open(..., encoding='utf-8')`) at ASCII
granularity: `none` models a `UnicodeDecodeError`. -/
def decodeStrict (b : List Nat) : Option String :=
  if b.all (fun n => n < 128) then some (String.mk (b.map Char.ofNat)) else none

/-- The bytes returned when a text file is opened in `'rb'` mode. -/
def encodeBytes (s : String) : List Nat :=
  s.toUTF8.toList.map (fun u => u.toNat)

/-- One entry of `_operation_metrics`. The source also accumulates
`total_time` from wall-clock durations, which the model does not track. -/
structure Metric where
  count : Nat
  errors : Nat
deriving DecidableEq, Repr

/-- Association-list dictionary primitives with Python-dict semantics:
lookup of the (unique) key, in-place overwrite keeping insertion order,
append of a fresh key, deletion. -/
def dictGet (k : String) (l : List (String × α)) : Option α :=
  List.lookup k l

/-- Python dict assignment: overwrite in place, or append a fresh key. -/
def dictSet (k : String) (v : α) : List (String × α) → List (String × α)
  | [] => [(k, v)]
  | (a, b) :: t => if a == k then (k, v) :: t else (a, b) :: dictSet k v t

/-- Python `del d[k]`. -/
def dictDel (k : String) (l : List (String × α)) : List (String × α) :=
  l.filter (fun p => p.1 ≠ k)

/-- The state of one `FileSystemManager` instance together with the part of
the filesystem it owns. `checksum_saves` is a ghost counter of
`_save_checksums` calls; `persisted_checksums` is the content of
`metadata/checksums.json`. -/
structure FMState where
  base_dir : String
  files : List (String × FContent)
  dirs : List String
  file_cache : List (String × (String × Nat))
  max_cache_size : Nat
  enable_versioning : Bool
  file_checksums : List (String × String)
  persisted_checksums : List (String × String)
  checksum_saves : Nat
  operation_metrics : List (String × Metric)
  access_log : List (String × List Nat)
deriving DecidableEq, Repr

/-- `os.path.isfile` within the modelled sandbox. -/
def existsFile (st : FMState) (fp : String) : Bool :=
  (dictGet fp st.files).isSome

/-- `os.path.isdir` within the modelled sandbox. -/
def existsDir (st : FMState) (fp : String) : Bool :=
  st.dirs.contains fp

/-- `os.path.exists` within the modelled sandbox. -/
def existsPath (st : FMState) (fp : String) : Bool :=
  existsFile st fp || existsDir st fp

/-! ## Internal helpers of FileSystemManager -/

/-- Metric record for one operation kind (`defaultdict` semantics: absent
kinds read as zero). -/
def getMetric (st : FMState) (kind : String) : Metric :=
  (dictGet kind st.operation_metrics).getD ⟨0, 0⟩

/-- `_track_operation`: ran by the `finally` block of the tracked
operations. -/
def track_operation (st : FMState) (kind : String) (success : Bool) : FMState :=
  let m := getMetric st kind
  { st with operation_metrics :=
      dictSet kind ⟨m.count + 1, m.errors + (if success then 0 else 1)⟩ st.operation_metrics }

/-- Result of the `_check_cache` probe on the raw cache list: cached content
when the entry is present and its age is under the five-minute TTL
(in seconds). -/
def probe_hit (cache : List (String × (String × Nat))) (fp : String) (now : Nat) :
    Option String :=
  match dictGet fp cache with
  | none => none
  | some (content, t) => if now - t < 300 then some content else none

/-- The cache list after the `_check_cache` probe: a hit refreshes the access
time, an expired entry is evicted. -/
def probe_cache (cache : List (String × (String × Nat))) (fp : String) (now : Nat) :
    List (String × (String × Nat)) :=
  match dictGet fp cache with
  | none => cache
  | some (content, t) =>
      if now - t < 300 then dictSet fp (content, now) cache else dictDel fp cache

/-- `_check_cache`: a hit refreshes the access time, an expired entry
(age of five minutes or more, measured in seconds) is evicted. -/
def check_cache (st : FMState) (fp : String) (now : Nat) : Option String × FMState :=
  (probe_hit st.file_cache fp now,
   { st with file_cache := probe_cache st.file_cache fp now })

/-- Key of the entry with the oldest access time (first occurrence wins the
tie, as Python's `min` over insertion-ordered items). -/
def oldestKey (l : List (String × (String × Nat))) : Option String :=
  match l with
  | [] => none
  | (k, (_, t)) :: rest =>
      some (rest.foldl (fun acc p => if p.2.2 < acc.2 then (p.1, p.2.2) else acc) (k, t)).1

/-- The cache list after `_update_cache`: evict the oldest entry when at
capacity, then insert. `none` models the `ValueError` Python's `min` raises
on an empty dict (only reachable when `max_cache_size = 0`). -/
def cache_after_put (cache : List (String × (String × Nat))) (maxs : Nat)
    (fp content : String) (now : Nat) : Option (List (String × (String × Nat))) :=
  if cache.length ≥ maxs then
    match oldestKey cache with
    | none => none
    | some k => some (dictSet fp (content, now) (dictDel k cache))
  else some (dictSet fp (content, now) cache)

/-- `_update_cache` acting on the manager state. -/
def update_cache (st : FMState) (fp content : String) (now : Nat) : Option FMState :=
  (cache_after_put st.file_cache st.max_cache_size fp content now).map
    (fun l => { st with file_cache := l })

/-- Verdict of `_verify_integrity`: `false` exactly when a non-empty stored
digest differs from the fresh one (the emptiness test models Python's
truthiness check on the stored value). -/
def verify_ok (checks : List (String × String)) (fp fresh : String) : Bool :=
  match dictGet fp checks with
  | some s => !(s ≠ "" && s ≠ fresh)
  | none => true

/-- The checksum map after `_verify_integrity`: left alone on a mismatch
(detection only), refreshed otherwise. -/
def checksums_after_verify (checks : List (String × String)) (fp fresh : String) :
    List (String × String) :=
  match dictGet fp checks with
  | some s => if s ≠ "" && s ≠ fresh then checks else dictSet fp fresh checks
  | none => dictSet fp fresh checks

/-- `_verify_integrity` acting on the manager state. -/
def verify_integrity (hash : FContent → String) (st : FMState) (fp : String)
    (content : FContent) : Bool × FMState :=
  (verify_ok st.file_checksums fp (hash content),
   { st with file_checksums := checksums_after_verify st.file_checksums fp (hash content) })

/-- `_save_checksums`: serialise the map to `metadata/checksums.json`;
`checksum_saves` is the ghost call counter. -/
def save_checksums (st : FMState) : FMState :=
  { st with persisted_checksums := st.file_checksums, checksum_saves := st.checksum_saves + 1 }

/-- `os.makedirs(d, exist_ok=True)` restricted to the directory the source
creates (ancestor creation is irrelevant to the claims). -/
def addDir (d : String) (dirs : List String) : List String :=
  if dirs.contains d then dirs else dirs ++ [d]

/-- The file map after `_create_version`: best-effort snapshot of the
current content under `versions/`; a missing file (or a directory, whose
copy raises and is only logged) leaves the map unchanged. -/
def version_files (st : FMState) (fp : String) (now : Nat) : List (String × FContent) :=
  if !st.enable_versioning then st.files
  else
    match dictGet fp st.files with
    | some content =>
        let vname := String.mk ((relpath fp st.base_dir).toList.map
          (fun ch => if ch = '/' then '_' else ch)) ++ "_" ++ toString now
        let vpath := st.base_dir ++ "/versions/" ++ vname
        dictSet vpath content st.files
    | none => st.files

/-- `_create_version` acting on the manager state. -/
def create_version (st : FMState) (fp : String) (now : Nat) : FMState :=
  { st with files := version_files st fp now }

/-- `self._access_log[filename].append(datetime.now())`. -/
def logAccess (filename : String) (now : Nat) (log : List (String × List Nat)) :
    List (String × List Nat) :=
  dictSet filename ((dictGet filename log).getD [] ++ [now]) log

/-- Result of an operation body: the returned pair, the value of the local
`success` flag as seen by the `finally` block, and the state. -/
structure OpOut (α : Type) where
  result : Bool × α
  succ : Bool
  st : FMState

/-! ## Public operations -/

/-- Body of `read_file` (everything inside the `try`): path validation, cache
probe, existence and type checks, the read itself, integrity verification,
cache population and access logging. Note that the cache-hit return happens
before the local `success` flag is set, so the `finally` block sees a failed
operation there. -/
def read_file_body (hash : FContent → String) (st : FMState) (filename : String)
    (use_cache : Bool) (now : Nat) : OpOut String :=
  if is_path_safe st.base_dir filename = false then
    ⟨(false, "Access denied: Invalid path"), false, st⟩
  else
    let fp := resolvePath st.base_dir filename
    let st1 := if use_cache then (check_cache st fp now).2 else st
    match (if use_cache then (check_cache st fp now).1 else none) with
    | some cached => ⟨(true, cached), false, st1⟩
    | none =>
      if existsPath st1 fp = false then
        ⟨(false, "File not found: " ++ filename), false, st1⟩
      else if existsFile st1 fp = false then
        ⟨(false, "Not a file: " ++ filename), false, st1⟩
      else
        let content :=
          match dictGet fp st1.files with
          | some (.text s) => s
          | some (.bin b) => decodeReplace b
          | none => ""
        let st2 := (verify_integrity hash st1 fp (.text content)).2
        match (if use_cache then cache_after_put st2.file_cache st2.max_cache_size fp content now
               else some st2.file_cache) with
        | none => ⟨(false, "Error reading file: min() arg is an empty sequence"), false, st2⟩
        | some l =>
            ⟨(true, content), true,
              { st2 with file_cache := l, access_log := logAccess filename now st2.access_log }⟩

/-- `FileSystemManager.read_file`: body wrapped by the metric-recording
`finally` block. -/
def read_file (hash : FContent → String) (st : FMState) (filename : String)
    (use_cache : Bool) (now : Nat) : (Bool × String) × FMState :=
  let o := read_file_body hash st filename use_cache now
  (o.result, track_operation o.st "read" o.succ)

/-- The optional pre-write version snapshot guarded by the `create_backup`
flag and the target's existence. -/
def backup_state (st : FMState) (fp : String) (bk : Bool) (now : Nat) : FMState :=
  if bk && existsPath st fp then create_version st fp now else st

/-- `os.makedirs(os.path.dirname(file_path), exist_ok=True)`. -/
def with_parent_dir (st1 : FMState) (fp : String) : FMState :=
  { st1 with dirs := addDir (pyDirname fp) st1.dirs }

/-- The state effect of the successful tail of `write_file`: the atomic
rename's result on the file map (seed is the pre-existing content in append
mode, empty otherwise), the checksum update keyed by the digest of the
`content` argument, the cache invalidation, and the size-triggered checksum
save. -/
def write_file_apply (hash : FContent → String) (st2 : FMState)
    (fp content seed : String) : FMState :=
  let st3 := { st2 with files := dictSet fp (.text (seed ++ content)) st2.files }
  let st4 := { st3 with
    file_checksums := dictSet fp (hash (.text content)) st3.file_checksums }
  let st5 :=
    if (dictGet fp st4.file_cache).isSome then
      { st4 with file_cache := dictDel fp st4.file_cache }
    else st4
  if st5.file_checksums.length % 10 == 0 then save_checksums st5 else st5

/-- Body of `write_file`: path validation, optional version snapshot,
directory creation, the append-mode read of the existing content (which can
hit a directory or undecodable bytes), the temp-file-then-rename write, the
checksum update, cache invalidation and size-triggered checksum save (the
last four through `write_file_apply`). -/
def write_file_body (hash : FContent → String) (st : FMState) (filename content : String)
    (append create_backup : Bool) (now : Nat) : OpOut String :=
  if is_path_safe st.base_dir filename = false then
    ⟨(false, "Access denied: Invalid path"), false, st⟩
  else
    let fp := resolvePath st.base_dir filename
    let st2 := with_parent_dir (backup_state st fp create_backup now) fp
    if append && existsPath st2 fp && (dictGet fp st2.files).isNone then
      ⟨(false, "OS error writing file: is a directory"), false, st2⟩
    else if append && existsPath st2 fp &&
        (match dictGet fp st2.files with
         | some (.bin b) => (decodeStrict b).isNone
         | _ => false) then
      ⟨(false, "Error writing file: invalid utf-8 in existing content"), false, st2⟩
    else if existsDir st2 fp then
      ⟨(false, "OS error writing file: is a directory"), false, st2⟩
    else
      ⟨(true, "File " ++ (if append then "appended to" else "written") ++
          " successfully: " ++ filename),
        true,
        write_file_apply hash st2 fp content
          (if append && existsPath st2 fp then
            match dictGet fp st2.files with
            | some (.text s) => s
            | some (.bin b) => (decodeStrict b).getD ""
            | none => ""
           else "")⟩

/-- `FileSystemManager.write_file`. -/
def write_file (hash : FContent → String) (st : FMState) (filename content : String)
    (append create_backup : Bool) (now : Nat) : (Bool × String) × FMState :=
  let o := write_file_body hash st filename content append create_backup now
  (o.result, track_operation o.st "write" o.succ)

/-- Body of `write_binary_file`: path validation, the 100 MiB size ceiling
checked before any mutation, optional version snapshot, directory creation,
the raw write, and the checksum update. No cache invalidation and no periodic
checksum save occur here. -/
def write_binary_file_body (hash : FContent → String) (st : FMState) (filename : String)
    (content : List Nat) (create_backup : Bool) (now : Nat) : OpOut String :=
  if is_path_safe st.base_dir filename = false then
    ⟨(false, "Access denied: Invalid path"), false, st⟩
  else
    let fp := resolvePath st.base_dir filename
    if content.length > 104857600 then
      ⟨(false, "Binary file too large: " ++ toString content.length ++
          " bytes (max 104857600)"), false, st⟩
    else
      let st2 := with_parent_dir (backup_state st fp create_backup now) fp
      if existsDir st2 fp then
        ⟨(false, "Error writing binary file: is a directory"), false, st2⟩
      else
        ⟨(true, "Binary file written: " ++ filename), true,
          { st2 with
            files := dictSet fp (.bin content) st2.files,
            file_checksums := dictSet fp (hash (.bin content)) st2.file_checksums }⟩

/-- `FileSystemManager.write_binary_file`. -/
def write_binary_file (hash : FContent → String) (st : FMState) (filename : String)
    (content : List Nat) (create_backup : Bool) (now : Nat) : (Bool × String) × FMState :=
  let o := write_binary_file_body hash st filename content create_backup now
  (o.result, track_operation o.st "write_binary" o.succ)

/-- Body of `read_binary_file`. The payload is `.inl bytes` on success and
`.inr message` on failure, mirroring the `bytes`-or-`str` union of the
source. -/
def read_binary_file_body (st : FMState) (filename : String) :
    OpOut (Sum (List Nat) String) :=
  if is_path_safe st.base_dir filename = false then
    ⟨(false, .inr "Access denied: Invalid path"), false, st⟩
  else
    let fp := resolvePath st.base_dir filename
    if existsPath st fp = false then
      ⟨(false, .inr ("File not found: " ++ filename)), false, st⟩
    else
      match dictGet fp st.files with
      | some (.bin b) => ⟨(true, .inl b), true, st⟩
      | some (.text s) => ⟨(true, .inl (encodeBytes s)), true, st⟩
      | none => ⟨(false, .inr "Error reading binary file: is a directory"), false, st⟩

/-- `FileSystemManager.read_binary_file`. -/
def read_binary_file (st : FMState) (filename : String) :
    (Bool × Sum (List Nat) String) × FMState :=
  let o := read_binary_file_body st filename
  (o.result, track_operation o.st "read_binary" o.succ)

/-! ## Directory listing -/

/-- One `os.listdir` entry together with its `os.stat` metadata; `statOk =
false` models an `OSError` from `os.stat`, which skips the entry. -/
structure OsEntry where
  name : String
  isDir : Bool
  size : Nat
  modified : Nat
  created : Nat
  mode : String
  statOk : Bool
deriving DecidableEq, Repr

/-- The OS view of the requested directory. -/
inductive DirLookup where
  | absent
  | notDir
  | entries (es : List OsEntry)
deriving Repr

/-- One metadata record returned by `list_files`. The `checksum` key is
present only when the checksum map knows the entry. -/
structure FileMeta where
  name : String
  path : String
  size : Nat
  modified : Nat
  created : Nat
  ftype : String
  mime_type : Option String
  permissions : String
  checksum : Option String
deriving DecidableEq, Repr

/-- Payload of `list_files`: an error message or the metadata list. -/
inductive ListPayload where
  | msg (s : String)
  | items (l : List FileMeta)
deriving DecidableEq, Repr

/-- `pattern_re.match(item)` for the optional regex, modelled as the compiled
pattern's match-at-start predicate. -/
def patMatch (pat : Option (String → Bool)) (name : String) : Bool :=
  match pat with
  | none => true
  | some f => f name

/-- Stable insertion of `x` after every already-placed element that compares
`le` to it (the placement Python's stable sort gives a later-arriving equal
element). -/
def insortBy (le : α → α → Bool) (x : α) : List α → List α
  | [] => [x]
  | y :: ys => if le y x then y :: insortBy le x ys else x :: y :: ys

/-- Stable ascending sort by the boolean comparison `le`, modelling
`list.sort(key=...)`. -/
def sortBy (le : α → α → Bool) (l : List α) : List α :=
  l.foldl (fun acc x => insortBy le x acc) []

/-- The sort key comparison of `list_files`:
`key=lambda x: (x['type'] == 'file', x['name'].lower())`, so entries that are
not files (directories) order first, then case-insensitive name. -/
def metaLe (a b : FileMeta) : Bool :=
  let ka := a.ftype == "file"
  let kb := b.ftype == "file"
  (!ka && kb) || (ka == kb && charListLe (lowerStr a.name).toList (lowerStr b.name).toList)

/-- The metadata record built for one surviving entry. -/
def mkMeta (st : FMState) (dir_path : String) (mime : String → Option String)
    (e : OsEntry) : FileMeta :=
  let item_path := pyJoin dir_path e.name
  { name := e.name
    path := relpath item_path st.base_dir
    size := e.size
    modified := e.modified
    created := e.created
    ftype := if e.isDir then "directory" else "file"
    mime_type := if e.isDir then none else mime e.name
    permissions := e.mode
    checksum := if e.isDir then none else dictGet item_path st.file_checksums }

/-- Body of `list_files`: validation, existence and type checks, the
filtering loop (pattern prefilter, stat-failure skip, optional directory
skip), and the final sort. -/
def list_files_body (st : FMState) (directory : String) (dirl : DirLookup)
    (include_dirs : Bool) (pat : Option (String → Bool)) (mime : String → Option String) :
    OpOut ListPayload :=
  if is_path_safe st.base_dir directory = false then
    ⟨(false, .msg "Access denied: Invalid path"), false, st⟩
  else
    let dir_path := resolvePath st.base_dir directory
    match dirl with
    | .absent => ⟨(false, .msg ("Directory not found: " ++ directory)), false, st⟩
    | .notDir => ⟨(false, .msg ("Not a directory: " ++ directory)), false, st⟩
    | .entries es =>
        let kept := es.filter
          (fun e => patMatch pat e.name && e.statOk && (include_dirs || !e.isDir))
        let items := kept.map (mkMeta st dir_path mime)
        ⟨(true, .items (sortBy metaLe items)), true, st⟩

/-- `FileSystemManager.list_files`. -/
def list_files (st : FMState) (directory : String) (dirl : DirLookup)
    (include_dirs : Bool) (pat : Option (String → Bool)) (mime : String → Option String) :
    (Bool × ListPayload) × FMState :=
  let o := list_files_body st directory dirl include_dirs pat mime
  (o.result, track_operation o.st "list" o.succ)

/-! ## Remaining orchestrator operations -/

/-- Body of `create_directory` (`os.makedirs(..., exist_ok=True)`; an
existing file at the target raises and is converted to a failure; the
`chmod` permission bits are outside the modelled state). -/
def create_directory_body (st : FMState) (directory_path : String) : OpOut String :=
  if is_path_safe st.base_dir directory_path = false then
    ⟨(false, "Access denied: Invalid path"), false, st⟩
  else
    let full := resolvePath st.base_dir directory_path
    if existsFile st full then
      ⟨(false, "Error creating directory: file exists"), false, st⟩
    else
      ⟨(true, "Directory created: " ++ directory_path), true,
        { st with dirs := addDir full st.dirs }⟩

/-- `FileSystemManager.create_directory`. -/
def create_directory (st : FMState) (directory_path : String) :
    (Bool × String) × FMState :=
  let o := create_directory_body st directory_path
  (o.result, track_operation o.st "create_dir" o.succ)

/-- Rename every path in the subtree rooted at `src` to live under `dst`
(the effect of `shutil.move` on a directory). -/
def moveSubtree (src dst : String) (st : FMState) : FMState :=
  { st with
    dirs := st.dirs.map (fun d =>
      if d == src then dst
      else if strStarts d (src ++ "/") then dst ++ d.drop src.length else d)
    files := st.files.map (fun pr =>
      if strStarts pr.1 (src ++ "/") then (dst ++ pr.1.drop src.length, pr.2) else pr) }

/-- Body of `delete_file`: archive (soft delete, timestamp-suffixed name) or
permanent removal (which raises on a directory), then cache and checksum
purge. -/
def delete_file_body (st : FMState) (filename : String) (move_to_archive : Bool)
    (now : Nat) : OpOut String :=
  if is_path_safe st.base_dir filename = false then
    ⟨(false, "Access denied: Invalid path"), false, st⟩
  else
    let fp := resolvePath st.base_dir filename
    if existsPath st fp = false then
      ⟨(false, "File not found: " ++ filename), false, st⟩
    else if move_to_archive = false && (dictGet fp st.files).isNone then
      ⟨(false, "Error deleting file: is a directory"), false, st⟩
    else
      let archive_path := st.base_dir ++ "/archive/" ++ pyBasename filename ++ "_" ++ toString now
      let st1 :=
        if move_to_archive then
          match dictGet fp st.files with
          | some c => { st with files := dictSet archive_path c (dictDel fp st.files) }
          | none => moveSubtree fp archive_path st
        else { st with files := dictDel fp st.files }
      let msg := if move_to_archive then "File archived: " ++ filename
                 else "File deleted: " ++ filename
      let st2 :=
        if (dictGet fp st1.file_cache).isSome then
          { st1 with file_cache := dictDel fp st1.file_cache }
        else st1
      let st3 :=
        if (dictGet fp st2.file_checksums).isSome then
          { st2 with file_checksums := dictDel fp st2.file_checksums }
        else st2
      ⟨(true, msg), true, st3⟩

/-- `FileSystemManager.delete_file`. -/
def delete_file (st : FMState) (filename : String) (move_to_archive : Bool)
    (now : Nat) : (Bool × String) × FMState :=
  let o := delete_file_body st filename move_to_archive now
  (o.result, track_operation o.st "delete" o.succ)

/-- `FileSystemManager.move_file`. The source records no metric for this
operation (there is no `finally` block). -/
def move_file (st : FMState) (source destination : String) : (Bool × String) × FMState :=
  if (is_path_safe st.base_dir source && is_path_safe st.base_dir destination) = false then
    ((false, "Access denied: Invalid path"), st)
  else
    let sp := resolvePath st.base_dir source
    let dp := resolvePath st.base_dir destination
    if existsPath st sp = false then
      ((false, "Source file not found: " ++ source), st)
    else
      let st1 := { st with dirs := addDir (pyDirname dp) st.dirs }
      let st2 :=
        match dictGet sp st1.files with
        | some c => { st1 with files := dictSet dp c (dictDel sp st1.files) }
        | none => moveSubtree sp dp st1
      let st3 :=
        match dictGet sp st2.file_checksums with
        | some cs =>
            { st2 with file_checksums := dictSet dp cs (dictDel sp st2.file_checksums) }
        | none => st2
      ((true, "File moved successfully"), st3)

/-- `FileSystemManager.copy_file`. No metric is recorded; the source
checksum entry, when present, is duplicated to the destination key. -/
def copy_file (st : FMState) (source destination : String) : (Bool × String) × FMState :=
  if (is_path_safe st.base_dir source && is_path_safe st.base_dir destination) = false then
    ((false, "Access denied: Invalid path"), st)
  else
    let sp := resolvePath st.base_dir source
    let dp := resolvePath st.base_dir destination
    if existsPath st sp = false then
      ((false, "Source file not found: " ++ source), st)
    else
      match dictGet sp st.files with
      | none => ((false, "Error copying file: is a directory"), st)
      | some c =>
          let st1 := { st with dirs := addDir (pyDirname dp) st.dirs }
          let st2 := { st1 with files := dictSet dp c st1.files }
          let st3 :=
            match dictGet sp st2.file_checksums with
            | some cs => { st2 with file_checksums := dictSet dp cs st2.file_checksums }
            | none => st2
          ((true, "File copied successfully"), st3)

/-- The metadata record of `get_file_info`; the `os.stat` timestamps, MIME
guess and permission bits are OS metadata outside the modelled sandbox and
are omitted. -/
structure FileInfo where
  name : String
  path : String
  absolute_path : String
  size : Nat
  ftype : String
  checksum : Option String
  is_cached : Bool
  access_count : Nat
deriving DecidableEq, Repr

/-- `FileSystemManager.get_file_info`. No metric is recorded. -/
def get_file_info (st : FMState) (filename : String) :
    (Bool × Sum FileInfo String) × FMState :=
  if is_path_safe st.base_dir filename = false then
    ((false, .inr "Access denied: Invalid path"), st)
  else
    let fp := resolvePath st.base_dir filename
    if existsPath st fp = false then
      ((false, .inr ("File not found: " ++ filename)), st)
    else
      let info : FileInfo :=
        { name := pyBasename filename
          path := filename
          absolute_path := fp
          size :=
            match dictGet fp st.files with
            | some (.text s) => s.utf8ByteSize
            | some (.bin b) => b.length
            | none => 0
          ftype := if existsDir st fp then "directory" else "file"
          checksum := dictGet fp st.file_checksums
          is_cached := (dictGet fp st.file_cache).isSome
          access_count := ((dictGet filename st.access_log).getD []).length }
      ((true, .inl info), st)

/-- Extension allowlist check of `search_files`: the filter applies only when
a non-empty list is supplied (Python truthiness of the argument). -/
def extAllowed (file_types : Option (List String)) (fname : String) : Bool :=
  match file_types with
  | none => true
  | some ts => if ts.isEmpty then true else ts.contains (lowerStr (splitextExt fname))

/-- `FileSystemManager.search_files`: case-insensitive substring match on
file names under the directory, walked recursively with hidden directories
pruned. The walk is derived from the modelled sandbox (result order follows
the file map rather than `os.walk` order). No metric is recorded. -/
def search_files (st : FMState) (search_term directory : String)
    (file_types : Option (List String)) : (Bool × Sum (List String) String) × FMState :=
  if is_path_safe st.base_dir directory = false then
    ((false, .inr "Access denied: Invalid path"), st)
  else
    let root0 := pyJoin st.base_dir directory
    let root := if strEnds root0 "/" then root0.dropRight 1 else root0
    if existsPath st root = false then
      ((false, .inr ("Directory not found: " ++ directory)), st)
    else
      let found := st.files.filterMap (fun pr =>
        if strStarts pr.1 (root ++ "/") then
          let rest := pr.1.drop (root ++ "/").length
          let comps := splitSlash rest
          let fname := comps.getLastD ""
          if (comps.dropLast).any (fun d => strStarts d ".") then none
          else if extAllowed file_types fname = false then none
          else if containsCI search_term fname then some (relpath pr.1 st.base_dir)
          else none
        else none)
      ((true, .inl found), st)

/-! ## Construction and concrete instances -/

/-- The directory skeleton `_initialize_directories` creates under the base
directory. -/
def initDirs (base : String) : List String :=
  [base, base ++ "/logs", base ++ "/temp", base ++ "/archive", base ++ "/versions",
   base ++ "/metadata", base ++ "/memory_shortterm", base ++ "/code",
   base ++ "/documentation", base ++ "/data", base ++ "/configuration",
   base ++ "/business", base ++ "/unsorted"]

/-- A freshly constructed manager over an already-normalised absolute base
directory, with the constructor defaults (`max_cache_size=100`,
`enable_versioning=True`) and no pre-existing `metadata/checksums.json`. -/
def initState (base : String) : FMState :=
  { base_dir := base
    files := []
    dirs := initDirs base
    file_cache := []
    max_cache_size := 100
    enable_versioning := true
    file_checksums := []
    persisted_checksums := []
    checksum_saves := 0
    operation_metrics := []
    access_log := [] }

/-- Stand-in for the SHA-256 hex digest computed by `hashlib` (library code
outside the repository); used to instantiate the hash-parametric operations
in closed evaluations. -/
def modelHash : FContent → String
  | .text s => "sha256-text:" ++ s
  | .bin b => "sha256-bin:" ++ toString b.length

/-- The state components a denied operation must leave untouched (the
metrics map and access log are excluded: tracked operations still record the
failure). -/
def coreUnchanged (st st' : FMState) : Prop :=
  st'.files = st.files ∧ st'.dirs = st.dirs ∧ st'.file_cache = st.file_cache ∧
    st'.file_checksums = st.file_checksums ∧
    st'.persisted_checksums = st.persisted_checksums

/-- Proper containment of a resolved path in the base directory: the meaning
of "inside BaseDirectory" (as opposed to the textual prefix test the source
uses). -/
def properlyInside (base resolved : String) : Bool :=
  resolved == base || strStarts resolved (base ++ "/")

/-! ## Concrete states and inputs used by the closed instances below -/

/-- The manager state used to instantiate the TTL claim. -/
def ttlState : FMState :=
  { initState "/data" with file_cache := [("/data/p", ("c", 100))] }

/-- Listing entries for the C6 witness: two files whose names start with
`2024` and one that does not. -/
def c6Entries : List OsEntry :=
  [⟨"2024-B.txt", false, 1, 0, 0, "644", true⟩,
   ⟨"2024-a.txt", false, 2, 0, 0, "644", true⟩,
   ⟨"2023.txt", false, 3, 0, 0, "644", true⟩]

/-- The listing the model produces for `c6Entries` under the `^2024.*`
pattern: only the matching names, case-insensitively ordered. -/
def c6Expected : List FileMeta :=
  [{ name := "2024-a.txt", path := "reports/2024-a.txt", size := 2, modified := 0, created := 0,
     ftype := "file", mime_type := none, permissions := "644", checksum := none },
   { name := "2024-B.txt", path := "reports/2024-B.txt", size := 1, modified := 0, created := 0,
     ftype := "file", mime_type := none, permissions := "644", checksum := none }]

/-- Directory entries for the C6 counterexample: one file and one
subdirectory. -/
def c6DirEntries : List OsEntry :=
  [⟨"a.txt", false, 5, 0, 0, "644", true⟩, ⟨"b", true, 0, 0, 0, "755", true⟩]

/-- The manager state used for the C8 counterexample's cache-hit read. -/
def c8State : FMState :=
  { initState "/data" with file_cache := [("/data/a.txt", ("hi", 0))] }

/-- Ten successive overwrites of the same path from a fresh manager, folding
the success flags. -/
def tenWrites : FMState × Bool :=
  (List.range 10).foldl
    (fun acc i =>
      let r := write_file modelHash acc.1 "a.txt" (toString i) false true i
      (r.2, acc.2 && r.1.1))
    (initState "/data", true)

/-- The state after writing `hello` to `a.txt` in a fresh manager. -/
def c2Pre : FMState :=
  (write_file modelHash (initState "/data") "a.txt" "hello" false true 0).2

/-- The manager state used for the C5 witness: a file exists so delete can
succeed. -/
def c5State : FMState :=
  { initState "/data" with files := [("/data/a.txt", FContent.text "x")] }

/-- The manager state used for the C5 counterexample: the path is cached as
text. -/
def c5Stale : FMState :=
  { initState "/data" with file_cache := [("/data/a.bin", ("old", 0))] }

/-! ## Dictionary lemmas -/

theorem dictGet_dictSet_self (k : String) (v : α) (l : List (String × α)) :
    dictGet k (dictSet k v l) = some v := by
  induction l with
  | nil => simp [dictGet, dictSet, List.lookup]
  | cons hd t ih =>
      obtain ⟨a, b⟩ := hd
      simp only [dictSet]
      by_cases hk : a = k
      · subst hk
        simp [dictGet, List.lookup]
      · have h1 : (a == k) = false := beq_eq_false_iff_ne.mpr hk
        have h2 : (k == a) = false := beq_eq_false_iff_ne.mpr (Ne.symm hk)
        simp only [h1, Bool.false_eq_true, if_false]
        simpa [dictGet, List.lookup, h2] using ih

theorem dictGet_dictDel_self (k : String) (l : List (String × α)) :
    dictGet k (dictDel k l) = none := by
  induction l with
  | nil => simp [dictGet, dictDel, List.lookup]
  | cons hd t ih =>
      obtain ⟨a, b⟩ := hd
      by_cases hk : a = k
      · subst hk
        simpa [dictDel, List.filter_cons] using ih
      · have h2 : (k == a) = false := beq_eq_false_iff_ne.mpr (Ne.symm hk)
        simp only [dictDel, List.filter_cons] at ih ⊢
        simp [hk, dictGet, List.lookup, h2] at ih ⊢
        exact ih

/-! ## Frame lemmas: which state fields each helper can touch -/

theorem update_cache_some (st : FMState) (fp content : String) (now : Nat)
    (st' : FMState) (h : update_cache st fp content now = some st') :
    ∃ l, cache_after_put st.file_cache st.max_cache_size fp content now = some l ∧
      st' = { st with file_cache := l } := by
  unfold update_cache at h
  rcases hl : cache_after_put st.file_cache st.max_cache_size fp content now with _ | l <;>
    rw [hl] at h
  · simp at h
  · simp only [Option.map_some', Option.some.injEq] at h
    exact ⟨l, rfl, h.symm⟩

theorem cache_after_put_isSome (cache : List (String × (String × Nat))) (maxs : Nat)
    (fp content : String) (now : Nat) (h : 0 < maxs) :
    (cache_after_put cache maxs fp content now).isSome := by
  unfold cache_after_put
  split
  · rename_i hlen
    rcases hc : cache with _ | ⟨⟨k, c, t⟩, rest⟩
    · rw [hc] at hlen
      simp at hlen
      omega
    · simp [oldestKey]
  · simp

theorem update_cache_isSome (st : FMState) (fp content : String) (now : Nat)
    (h : 0 < st.max_cache_size) : (update_cache st fp content now).isSome := by
  unfold update_cache
  rcases hl : cache_after_put st.file_cache st.max_cache_size fp content now with _ | l
  · have := cache_after_put_isSome st.file_cache st.max_cache_size fp content now h
    rw [hl] at this
    simp at this
  · simp

theorem track_operation_frame (st : FMState) (kind : String) (s : Bool) :
    track_operation st kind s =
      { st with operation_metrics := (track_operation st kind s).operation_metrics } := by
  rfl

theorem getMetric_track_self (st : FMState) (kind : String) (s : Bool) :
    getMetric (track_operation st kind s) kind =
      ⟨(getMetric st kind).count + 1, (getMetric st kind).errors + (if s then 0 else 1)⟩ := by
  simp [track_operation, getMetric, dictGet_dictSet_self]

theorem coreUnchanged_refl (st : FMState) : coreUnchanged st st := by
  simp [coreUnchanged]

theorem coreUnchanged_track (st : FMState) (kind : String) (s : Bool) :
    coreUnchanged st (track_operation st kind s) := by
  simp [coreUnchanged, track_operation]

/-! ## Projections of the write-path helper states -/

@[simp] theorem backup_state_base_dir (st : FMState) (fp : String) (bk : Bool) (now : Nat) :
    (backup_state st fp bk now).base_dir = st.base_dir := by
  unfold backup_state
  split <;> simp [create_version]

@[simp] theorem backup_state_dirs (st : FMState) (fp : String) (bk : Bool) (now : Nat) :
    (backup_state st fp bk now).dirs = st.dirs := by
  unfold backup_state
  split <;> simp [create_version]

@[simp] theorem with_parent_dir_def (st1 : FMState) (fp : String) :
    with_parent_dir st1 fp = { st1 with dirs := addDir (pyDirname fp) st1.dirs } := rfl

@[simp] theorem backup_state_file_cache (st : FMState) (fp : String) (bk : Bool) (now : Nat) :
    (backup_state st fp bk now).file_cache = st.file_cache := by
  unfold backup_state
  split <;> simp [create_version]

@[simp] theorem backup_state_max_cache_size (st : FMState) (fp : String) (bk : Bool) (now : Nat) :
    (backup_state st fp bk now).max_cache_size = st.max_cache_size := by
  unfold backup_state
  split <;> simp [create_version]

@[simp] theorem backup_state_enable_versioning (st : FMState) (fp : String) (bk : Bool) (now : Nat) :
    (backup_state st fp bk now).enable_versioning = st.enable_versioning := by
  unfold backup_state
  split <;> simp [create_version]

@[simp] theorem backup_state_file_checksums (st : FMState) (fp : String) (bk : Bool) (now : Nat) :
    (backup_state st fp bk now).file_checksums = st.file_checksums := by
  unfold backup_state
  split <;> simp [create_version]

@[simp] theorem backup_state_persisted_checksums (st : FMState) (fp : String) (bk : Bool) (now : Nat) :
    (backup_state st fp bk now).persisted_checksums = st.persisted_checksums := by
  unfold backup_state
  split <;> simp [create_version]

@[simp] theorem backup_state_checksum_saves (st : FMState) (fp : String) (bk : Bool) (now : Nat) :
    (backup_state st fp bk now).checksum_saves = st.checksum_saves := by
  unfold backup_state
  split <;> simp [create_version]

@[simp] theorem backup_state_operation_metrics (st : FMState) (fp : String) (bk : Bool) (now : Nat) :
    (backup_state st fp bk now).operation_metrics = st.operation_metrics := by
  unfold backup_state
  split <;> simp [create_version]

@[simp] theorem backup_state_access_log (st : FMState) (fp : String) (bk : Bool) (now : Nat) :
    (backup_state st fp bk now).access_log = st.access_log := by
  unfold backup_state
  split <;> simp [create_version]

@[simp] theorem write_file_apply_files (hash : FContent → String) (st2 : FMState)
    (fp content seed : String) :
    (write_file_apply hash st2 fp content seed).files =
      dictSet fp (.text (seed ++ content)) st2.files := by
  unfold write_file_apply
  dsimp only
  repeat' split
  all_goals simp [save_checksums]

@[simp] theorem write_file_apply_file_checksums (hash : FContent → String) (st2 : FMState)
    (fp content seed : String) :
    (write_file_apply hash st2 fp content seed).file_checksums =
      dictSet fp (hash (.text content)) st2.file_checksums := by
  unfold write_file_apply
  dsimp only
  repeat' split
  all_goals simp [save_checksums]

@[simp] theorem write_file_apply_base_dir (hash : FContent → String) (st2 : FMState)
    (fp content seed : String) :
    (write_file_apply hash st2 fp content seed).base_dir = st2.base_dir := by
  unfold write_file_apply
  dsimp only
  repeat' split
  all_goals simp [save_checksums]

@[simp] theorem write_file_apply_dirs (hash : FContent → String) (st2 : FMState)
    (fp content seed : String) :
    (write_file_apply hash st2 fp content seed).dirs = st2.dirs := by
  unfold write_file_apply
  dsimp only
  repeat' split
  all_goals simp [save_checksums]

@[simp] theorem write_file_apply_max_cache_size (hash : FContent → String) (st2 : FMState)
    (fp content seed : String) :
    (write_file_apply hash st2 fp content seed).max_cache_size = st2.max_cache_size := by
  unfold write_file_apply
  dsimp only
  repeat' split
  all_goals simp [save_checksums]

@[simp] theorem write_file_apply_enable_versioning (hash : FContent → String) (st2 : FMState)
    (fp content seed : String) :
    (write_file_apply hash st2 fp content seed).enable_versioning = st2.enable_versioning := by
  unfold write_file_apply
  dsimp only
  repeat' split
  all_goals simp [save_checksums]

@[simp] theorem write_file_apply_operation_metrics (hash : FContent → String) (st2 : FMState)
    (fp content seed : String) :
    (write_file_apply hash st2 fp content seed).operation_metrics = st2.operation_metrics := by
  unfold write_file_apply
  dsimp only
  repeat' split
  all_goals simp [save_checksums]

@[simp] theorem write_file_apply_access_log (hash : FContent → String) (st2 : FMState)
    (fp content seed : String) :
    (write_file_apply hash st2 fp content seed).access_log = st2.access_log := by
  unfold write_file_apply
  dsimp only
  repeat' split
  all_goals simp [save_checksums]

theorem write_file_apply_cache_none (hash : FContent → String) (st2 : FMState)
    (fp content seed : String) :
    dictGet fp (write_file_apply hash st2 fp content seed).file_cache = none := by
  unfold write_file_apply
  dsimp only
  repeat' split
  all_goals simp_all [save_checksums, dictGet_dictDel_self, Option.not_isSome_iff_eq_none]

theorem write_file_apply_checksum_saves (hash : FContent → String) (st2 : FMState)
    (fp content seed : String) :
    (write_file_apply hash st2 fp content seed).checksum_saves =
      st2.checksum_saves +
        (if (dictSet fp (hash (.text content)) st2.file_checksums).length % 10 == 0
         then 1 else 0) := by
  unfold write_file_apply
  dsimp only
  repeat' split
  all_goals simp_all [save_checksums]

/-! ## Metric preservation: operation bodies never touch the metrics map -/

theorem read_file_body_metrics (hash : FContent → String) (st : FMState) (f : String)
    (uc : Bool) (now : Nat) :
    (read_file_body hash st f uc now).st.operation_metrics = st.operation_metrics := by
  cases uc with
  | false =>
      unfold read_file_body
      dsimp only
      repeat' split
      all_goals simp [check_cache, verify_integrity]
  | true =>
      unfold read_file_body
      dsimp only
      repeat' split
      all_goals simp [check_cache, verify_integrity]

theorem write_file_body_metrics (hash : FContent → String) (st : FMState) (f c : String)
    (ap bk : Bool) (now : Nat) :
    (write_file_body hash st f c ap bk now).st.operation_metrics = st.operation_metrics := by
  unfold write_file_body
  dsimp only
  repeat' split
  all_goals simp [create_version, save_checksums]

theorem write_binary_file_body_metrics (hash : FContent → String) (st : FMState) (f : String)
    (b : List Nat) (bk : Bool) (now : Nat) :
    (write_binary_file_body hash st f b bk now).st.operation_metrics = st.operation_metrics := by
  unfold write_binary_file_body
  dsimp only
  repeat' split
  all_goals simp [create_version]

theorem read_binary_file_body_metrics (st : FMState) (f : String) :
    (read_binary_file_body st f).st.operation_metrics = st.operation_metrics := by
  unfold read_binary_file_body
  dsimp only
  repeat' split
  all_goals rfl

theorem list_files_body_metrics (st : FMState) (d : String) (dirl : DirLookup)
    (incl : Bool) (pat : Option (String → Bool)) (mime : String → Option String) :
    (list_files_body st d dirl incl pat mime).st.operation_metrics = st.operation_metrics := by
  unfold list_files_body
  dsimp only
  repeat' split
  all_goals rfl

theorem create_directory_body_metrics (st : FMState) (d : String) :
    (create_directory_body st d).st.operation_metrics = st.operation_metrics := by
  unfold create_directory_body
  dsimp only
  repeat' split
  all_goals rfl

theorem delete_file_body_metrics (st : FMState) (f : String) (mta : Bool) (now : Nat) :
    (delete_file_body st f mta now).st.operation_metrics = st.operation_metrics := by
  unfold delete_file_body
  dsimp only
  repeat' split
  all_goals simp [moveSubtree]

theorem move_file_metrics (st : FMState) (s d : String) :
    (move_file st s d).2.operation_metrics = st.operation_metrics := by
  unfold move_file
  dsimp only
  repeat' split
  all_goals simp [moveSubtree]

theorem copy_file_metrics (st : FMState) (s d : String) :
    (copy_file st s d).2.operation_metrics = st.operation_metrics := by
  unfold copy_file
  dsimp only
  repeat' split
  all_goals rfl

theorem get_file_info_state (st : FMState) (f : String) :
    (get_file_info st f).2 = st := by
  unfold get_file_info
  dsimp only
  repeat' split
  all_goals rfl

theorem search_files_state (st : FMState) (term d : String)
    (fts : Option (List String)) :
    (search_files st term d fts).2 = st := by
  unfold search_files
  dsimp only
  repeat' split
  all_goals rfl

theorem addDir_contains (d : String) (ds : List String) (x : String) :
    (addDir d ds).contains x = (ds.contains x || x == d) := by
  unfold addDir
  split
  · rename_i hd
    by_cases hx : x = d
    · subst hx
      simp only [hd]
      simp
    · simp [beq_eq_false_iff_ne.mpr hx]
  · simp only [List.contains]
    by_cases hxd : x = d <;> simp [hxd]

theorem is_path_safe_false_of_noStart (base p : String)
    (h : strStarts (abspathJoin base p) base = false) :
    is_path_safe base p = false := by
  simp [is_path_safe, h]

/-! ## Sorting lemmas -/

theorem insortBy_mem (le : α → α → Bool) (x : α) (l : List α) (z : α) :
    z ∈ insortBy le x l ↔ z = x ∨ z ∈ l := by
  induction l with
  | nil => simp [insortBy]
  | cons y ys ih =>
      simp only [insortBy]
      split
      · simp only [List.mem_cons, ih]
        tauto
      · simp only [List.mem_cons]

theorem insortBy_pairwise (le : α → α → Bool)
    (htrans : ∀ a b c, le a b → le b c → le a c)
    (htotal : ∀ a b, le a b || le b a)
    (x : α) (l : List α) (h : l.Pairwise (fun a b => le a b = true)) :
    (insortBy le x l).Pairwise (fun a b => le a b = true) := by
  induction l with
  | nil => simp [insortBy]
  | cons y ys ih =>
      rcases List.pairwise_cons.mp h with ⟨hy, hys⟩
      simp only [insortBy]
      split
      · rename_i hle
        refine List.pairwise_cons.mpr ⟨?_, ih hys⟩
        intro z hz
        rcases (insortBy_mem le x ys z).mp hz with rfl | hz2
        · exact hle
        · exact hy z hz2
      · rename_i hnle
        have hxy : le x y = true := by
          have ht := htotal x y
          cases hyx : le y x
          · simpa [hyx] using ht
          · exact absurd hyx hnle
        refine List.pairwise_cons.mpr ⟨?_, h⟩
        intro z hz
        rcases List.mem_cons.mp hz with rfl | hz2
        · exact hxy
        · exact htrans x y z hxy (hy z hz2)

theorem foldl_insortBy_mem (le : α → α → Bool) (l : List α) (acc : List α) (z : α) :
    z ∈ l.foldl (fun a x => insortBy le x a) acc ↔ z ∈ acc ∨ z ∈ l := by
  induction l generalizing acc with
  | nil => simp
  | cons x xs ih =>
      simp only [List.foldl_cons]
      rw [ih]
      simp only [insortBy_mem, List.mem_cons]
      tauto

theorem sortBy_mem (le : α → α → Bool) (l : List α) (z : α) :
    z ∈ sortBy le l ↔ z ∈ l := by
  unfold sortBy
  rw [foldl_insortBy_mem]
  simp

theorem foldl_insortBy_pairwise (le : α → α → Bool)
    (htrans : ∀ a b c, le a b → le b c → le a c)
    (htotal : ∀ a b, le a b || le b a)
    (l acc : List α) (h : acc.Pairwise (fun a b => le a b = true)) :
    (l.foldl (fun a x => insortBy le x a) acc).Pairwise (fun a b => le a b = true) := by
  induction l generalizing acc with
  | nil => simpa using h
  | cons x xs ih =>
      simp only [List.foldl_cons]
      exact ih _ (insortBy_pairwise le htrans htotal x acc h)

theorem sortBy_pairwise (le : α → α → Bool)
    (htrans : ∀ a b c, le a b → le b c → le a c)
    (htotal : ∀ a b, le a b || le b a) (l : List α) :
    (sortBy le l).Pairwise (fun a b => le a b = true) :=
  foldl_insortBy_pairwise le htrans htotal l [] (by simp)

/-! ## The listing order is a total preorder -/

theorem charListLe_total : ∀ xs ys : List Char, charListLe xs ys || charListLe ys xs := by
  intro xs
  induction xs with
  | nil => intro ys; simp [charListLe]
  | cons a as ih =>
      intro ys
      cases ys with
      | nil => simp [charListLe]
      | cons b bs =>
          simp only [charListLe]
          rcases lt_trichotomy a b with h | h | h
          · simp [h]
          · subst h
            simp [lt_irrefl, ih bs]
          · simp [lt_asymm h, (ne_of_gt h), h]

theorem charListLe_trans :
    ∀ xs ys zs : List Char, charListLe xs ys → charListLe ys zs → charListLe xs zs := by
  intro xs
  induction xs with
  | nil => intro ys zs h1 h2; simp [charListLe]
  | cons a as ih =>
      intro ys zs h1 h2
      cases ys with
      | nil => simp [charListLe] at h1
      | cons b bs =>
          cases zs with
          | nil => simp [charListLe] at h2
          | cons c cs =>
              simp only [charListLe] at h1 h2 ⊢
              by_cases hab : a < b
              · by_cases hbc : b < c
                · simp [lt_trans hab hbc]
                · by_cases hbc2 : b = c
                  · subst hbc2
                    simp [hab]
                  · simp [hbc, hbc2] at h2
              · by_cases hab2 : a = b
                · subst hab2
                  simp [lt_irrefl] at h1
                  by_cases hac : a < c
                  · simp [hac]
                  · by_cases hac2 : a = c
                    · subst hac2
                      simp [lt_irrefl] at h2 ⊢
                      exact ih bs cs h1 h2
                    · simp [hac, hac2] at h2
                · simp [hab, hab2] at h1

theorem metaLe_total (a b : FileMeta) : metaLe a b || metaLe b a := by
  unfold metaLe
  cases hka : a.ftype == "file" <;> cases hkb : b.ftype == "file" <;>
    simp [hka, hkb, charListLe_total]

theorem metaLe_trans (a b c : FileMeta) (h1 : metaLe a b) (h2 : metaLe b c) :
    metaLe a c := by
  unfold metaLe at h1 h2 ⊢
  cases hka : a.ftype == "file" <;> cases hkb : b.ftype == "file" <;>
      cases hkc : c.ftype == "file" <;> simp_all
  all_goals exact charListLe_trans _ _ _ (by assumption) (by assumption)

/-! ## Claim C10 -/

/-- Claim C10: containment is decided by a textual string-prefix test on the
resolved absolute path, so with BaseDirectory `/data` the input
`../database/secret` resolves to `/database/secret`, which lies outside
BaseDirectory, yet `_is_path_safe` returns true because the resolved string
starts with the BaseDirectory string without a separator check. -/
theorem C10_textual_prefix_gap :
    abspathJoin "/data" "../database/secret" = "/database/secret" ∧
    properlyInside "/data" (abspathJoin "/data" "../database/secret") = false ∧
    is_path_safe "/data" "../database/secret" = true := by
  refine ⟨by decide, by decide, by decide⟩

/-! ## Claim C1 -/

/-- Claim C1, counterexample: the input `../database/secret` under
BaseDirectory `/data` contains a `../` sequence and resolves outside
BaseDirectory, yet `_is_path_safe` accepts it, refuting the claim that every
escaping `../` path is rejected. -/
theorem C1_escaping_path_accepted :
    containsCI "../" "../database/secret" = true ∧
    properlyInside "/data" (abspathJoin "/data" "../database/secret") = false ∧
    is_path_safe "/data" "../database/secret" = true := by
  refine ⟨by decide, by decide, by decide⟩

/-- Claim C1, amended: for every input path whose resolved absolute path does
not textually start with BaseDirectory's path string, `_is_path_safe` returns
false, and every public operation called with that path returns the failure
result `Access denied: Invalid path` with the sandbox files, directories,
cache, and checksum maps untouched (only the error metric and security log
are updated). -/
theorem C1_denied_outside_textual_prefix
    (hash : FContent → String) (st : FMState) (p : String)
    (uc ap bk mta incl : Bool) (c : String) (b : List Nat) (now : Nat)
    (dirl : DirLookup) (pat : Option (String → Bool)) (mime : String → Option String)
    (d term : String) (fts : Option (List String))
    (h : strStarts (abspathJoin st.base_dir p) st.base_dir = false) :
    is_path_safe st.base_dir p = false ∧
    ((read_file hash st p uc now).1 = (false, "Access denied: Invalid path") ∧
      coreUnchanged st (read_file hash st p uc now).2) ∧
    ((write_file hash st p c ap bk now).1 = (false, "Access denied: Invalid path") ∧
      coreUnchanged st (write_file hash st p c ap bk now).2) ∧
    ((write_binary_file hash st p b bk now).1 = (false, "Access denied: Invalid path") ∧
      coreUnchanged st (write_binary_file hash st p b bk now).2) ∧
    ((read_binary_file st p).1 = (false, .inr "Access denied: Invalid path") ∧
      coreUnchanged st (read_binary_file st p).2) ∧
    ((list_files st p dirl incl pat mime).1 = (false, .msg "Access denied: Invalid path") ∧
      coreUnchanged st (list_files st p dirl incl pat mime).2) ∧
    ((create_directory st p).1 = (false, "Access denied: Invalid path") ∧
      coreUnchanged st (create_directory st p).2) ∧
    ((delete_file st p mta now).1 = (false, "Access denied: Invalid path") ∧
      coreUnchanged st (delete_file st p mta now).2) ∧
    ((move_file st p d).1 = (false, "Access denied: Invalid path") ∧
      coreUnchanged st (move_file st p d).2) ∧
    ((copy_file st p d).1 = (false, "Access denied: Invalid path") ∧
      coreUnchanged st (copy_file st p d).2) ∧
    ((get_file_info st p).1 = (false, .inr "Access denied: Invalid path") ∧
      coreUnchanged st (get_file_info st p).2) ∧
    ((search_files st term p fts).1 = (false, .inr "Access denied: Invalid path") ∧
      coreUnchanged st (search_files st term p fts).2) := by
  have hs := is_path_safe_false_of_noStart st.base_dir p h
  refine ⟨hs, ⟨?_, ?_⟩, ⟨?_, ?_⟩, ⟨?_, ?_⟩, ⟨?_, ?_⟩, ⟨?_, ?_⟩, ⟨?_, ?_⟩, ⟨?_, ?_⟩,
    ⟨?_, ?_⟩, ⟨?_, ?_⟩, ⟨?_, ?_⟩, ⟨?_, ?_⟩⟩ <;>
    simp [read_file, read_file_body, write_file, write_file_body, write_binary_file,
      write_binary_file_body, read_binary_file, read_binary_file_body, list_files,
      list_files_body, create_directory, create_directory_body, delete_file,
      delete_file_body, move_file, copy_file, get_file_info, search_files, hs,
      coreUnchanged, track_operation]

/-- Concrete instance of the amended C1: with BaseDirectory `/data` the
absolute input `/etc/shadow` resolves outside the textual prefix, is judged
unsafe, and a read returns the access-denied failure. -/
theorem C1_denied_outside_textual_prefix_witness :
    is_path_safe (initState "/data").base_dir "/etc/shadow" = false ∧
    (read_file modelHash (initState "/data") "/etc/shadow" true 0).1 =
      (false, "Access denied: Invalid path") := by
  have h := C1_denied_outside_textual_prefix modelHash (initState "/data") "/etc/shadow"
    true false true true true "" [] 0 DirLookup.absent none (fun _ => none) "x" "y" none
    (by decide)
  exact ⟨h.1, h.2.1.1⟩

/-! ## Claim C7 -/

/-- Claim C7: a cache entry inserted at time `T` is a miss and is evicted
when probed at `T` plus six minutes, and more generally `_check_cache`
returns cached content only when the entry's age is under the five-minute
TTL. -/
theorem C7_cache_ttl (st : FMState) (p c : String) (T now : Nat)
    (h : dictGet p st.file_cache = some (c, T)) :
    ((check_cache st p (T + 360)).1 = none ∧
      dictGet p (check_cache st p (T + 360)).2.file_cache = none) ∧
    (∀ r, (check_cache st p now).1 = some r → now - T < 300 ∧ r = c) := by
  have h360 : T + 360 - T = 360 := by omega
  refine ⟨⟨?_, ?_⟩, ?_⟩
  · simp [check_cache, probe_hit, h, h360]
  · simp [check_cache, probe_cache, h, h360, dictGet_dictDel_self]
  · intro r hr
    simp only [check_cache, probe_hit, h] at hr
    by_cases hlt : now - T < 300
    · simp [hlt] at hr
      exact ⟨hlt, hr.symm⟩
    · simp [hlt] at hr

/-- Concrete instance of C7: the entry inserted at time 100 misses and is
evicted at time 460, and a probe at time 150 can only return the cached
content while fresh. -/
theorem C7_cache_ttl_witness :
    ((check_cache ttlState "/data/p" (100 + 360)).1 = none ∧
      dictGet "/data/p" (check_cache ttlState "/data/p" (100 + 360)).2.file_cache = none) ∧
    (∀ r, (check_cache ttlState "/data/p" 150).1 = some r → 150 - 100 < 300 ∧ r = "c") :=
  C7_cache_ttl ttlState "/data/p" "c" 100 150 (by decide)

/-! ## Claim C4 -/

/-- Claim C4, amended: the binary size ceiling is 100 MiB, i.e. 104857600
bytes; `write_binary_file` rejects every payload strictly larger than that
with the size failure result before any file is created or modified, while a
101000000-byte payload is below the ceiling and is accepted. -/
theorem C4_size_ceiling (hash : FContent → String) (st : FMState) (f : String)
    (b : List Nat) (bk : Bool) (now : Nat)
    (hsafe : is_path_safe st.base_dir f = true)
    (hsize : b.length > 104857600) :
    (write_binary_file hash st f b bk now).1 =
      (false, "Binary file too large: " ++ toString b.length ++ " bytes (max 104857600)") ∧
    coreUnchanged st (write_binary_file hash st f b bk now).2 := by
  constructor <;>
    simp [write_binary_file, write_binary_file_body, hsafe, hsize, coreUnchanged,
      track_operation]

/-- Concrete instance of C4 amended: a payload one byte over the 104857600
ceiling is rejected with the sandbox untouched. -/
theorem C4_size_ceiling_witness :
    (write_binary_file modelHash (initState "/data") "img.bin"
        (List.replicate 104857601 0) true 0).1 =
      (false, "Binary file too large: " ++ toString (List.replicate 104857601 (0 : Nat)).length ++
        " bytes (max 104857600)") ∧
    coreUnchanged (initState "/data")
      (write_binary_file modelHash (initState "/data") "img.bin"
        (List.replicate 104857601 0) true 0).2 :=
  C4_size_ceiling modelHash (initState "/data") "img.bin" (List.replicate 104857601 0) true 0
    (by decide) (by rw [List.length_replicate]; omega)

/-- A successful binary write: payload within the ceiling, validated path,
and no directory sitting at the target. The file is created with exactly the
given bytes. -/
theorem write_binary_file_success (hash : FContent → String) (st : FMState) (f : String)
    (b : List Nat) (bk : Bool) (now : Nat)
    (hsafe : is_path_safe st.base_dir f = true)
    (hsize : ¬ b.length > 104857600)
    (hdir : (addDir (pyDirname (resolvePath st.base_dir f)) st.dirs).contains
        (resolvePath st.base_dir f) = false) :
    (write_binary_file hash st f b bk now).1 = (true, "Binary file written: " ++ f) ∧
    dictGet (resolvePath st.base_dir f)
      (write_binary_file hash st f b bk now).2.files = some (.bin b) := by
  have hdir2 : resolvePath st.base_dir f ∉
      addDir (pyDirname (resolvePath st.base_dir f)) st.dirs := by
    simpa using hdir
  by_cases hb : (bk && existsPath st (resolvePath st.base_dir f)) = true
  · constructor <;>
      simp [write_binary_file, write_binary_file_body, hsafe, hsize, hb, existsDir,
        create_version, hdir2, track_operation, dictGet_dictSet_self]
  · constructor <;>
      simp [write_binary_file, write_binary_file_body, hsafe, hsize, hb, existsDir,
        create_version, hdir2, track_operation, dictGet_dictSet_self]

/-- Claim C4, counterexample: `write_binary_file("img.bin", b)` for a payload
`b` of 101000000 bytes succeeds and creates the file, because 101000000 is
below the actual ceiling of 104857600 bytes; the claimed SizeExceeded failure
does not occur. -/
theorem C4_101MB_payload_accepted :
    (write_binary_file modelHash (initState "/data") "img.bin"
        (List.replicate 101000000 0) true 0).1 =
      (true, "Binary file written: " ++ "img.bin") ∧
    dictGet (resolvePath (initState "/data").base_dir "img.bin")
      (write_binary_file modelHash (initState "/data") "img.bin"
        (List.replicate 101000000 0) true 0).2.files =
      some (.bin (List.replicate 101000000 0)) :=
  write_binary_file_success modelHash (initState "/data") "img.bin"
    (List.replicate 101000000 0) true 0 (by decide)
    (by rw [List.length_replicate]; omega) (by decide)

/-! ## Read/write success characterisations (claim C3) -/

theorem cache_after_put_get (cache : List (String × (String × Nat))) (maxs : Nat)
    (fp content : String) (now : Nat) (l : List (String × (String × Nat)))
    (h : cache_after_put cache maxs fp content now = some l) :
    dictGet fp l = some (content, now) := by
  unfold cache_after_put at h
  split at h
  · rcases hk : oldestKey cache with _ | k <;> rw [hk] at h
    · simp at h
    · simp only [Option.some.injEq] at h
      rw [← h]
      exact dictGet_dictSet_self fp (content, now) _
  · simp only [Option.some.injEq] at h
    rw [← h]
    exact dictGet_dictSet_self fp (content, now) _

/-- A read served under a consistent state returns exactly the on-disk text
and preserves the consistency facts, whether it comes from the cache or from
a fresh fetch. -/
theorem read_file_ok (hash : FContent → String) (st : FMState) (filename c : String)
    (uc : Bool) (now : Nat)
    (hsafe : is_path_safe st.base_dir filename = true)
    (hmax : 0 < st.max_cache_size)
    (hfile : dictGet (resolvePath st.base_dir filename) st.files = some (.text c))
    (hcache : ∀ p : String × Nat,
      dictGet (resolvePath st.base_dir filename) st.file_cache = some p → p.1 = c) :
    (read_file hash st filename uc now).1 = (true, c) ∧
    (read_file hash st filename uc now).2.base_dir = st.base_dir ∧
    (read_file hash st filename uc now).2.max_cache_size = st.max_cache_size ∧
    dictGet (resolvePath st.base_dir filename) (read_file hash st filename uc now).2.files =
      some (.text c) ∧
    (∀ p : String × Nat,
      dictGet (resolvePath st.base_dir filename)
        (read_file hash st filename uc now).2.file_cache = some p → p.1 = c) := by
  cases uc with
  | false =>
      have heq : read_file hash st filename false now =
          ((true, c),
            track_operation
              { st with
                file_checksums := checksums_after_verify st.file_checksums
                  (resolvePath st.base_dir filename) (hash (.text c)),
                access_log := logAccess filename now st.access_log } "read" true) := by
        simp [read_file, read_file_body, hsafe, existsPath, existsFile, hfile,
          verify_integrity]
      rw [heq]
      refine ⟨rfl, by simp [track_operation], by simp [track_operation],
        by simp [track_operation, hfile], ?_⟩
      intro p hp
      exact hcache p (by simpa [track_operation] using hp)
  | true =>
      rcases hget : dictGet (resolvePath st.base_dir filename) st.file_cache
        with _ | ⟨c0, t⟩
      · rcases hl : cache_after_put st.file_cache st.max_cache_size
            (resolvePath st.base_dir filename) c now with _ | l
        · have := cache_after_put_isSome st.file_cache st.max_cache_size
            (resolvePath st.base_dir filename) c now hmax
          rw [hl] at this
          simp at this
        · have hgl := cache_after_put_get _ _ _ _ _ _ hl
          have heq : read_file hash st filename true now =
              ((true, c),
                track_operation
                  { st with
                    file_cache := l,
                    file_checksums := checksums_after_verify st.file_checksums
                      (resolvePath st.base_dir filename) (hash (.text c)),
                    access_log := logAccess filename now st.access_log } "read" true) := by
            simp [read_file, read_file_body, check_cache, probe_hit, probe_cache, hget,
              hsafe, existsPath, existsFile, hfile, verify_integrity, hl]
          rw [heq]
          refine ⟨rfl, by simp [track_operation], by simp [track_operation],
            by simp [track_operation, hfile], ?_⟩
          intro p hp
          have hp2 : some (c, now) = some p := by
            rw [← hgl]
            simpa [track_operation] using hp
          rw [← Option.some.inj hp2]
      · have hc0 : c = c0 := (hcache (c0, t) hget).symm
        subst hc0
        by_cases hfresh : now - t < 300
        · have heq : read_file hash st filename true now =
              ((true, c),
                track_operation
                  { st with file_cache :=
                      (dictSet (resolvePath st.base_dir filename) (c, now) st.file_cache) }
                  "read" false) := by
            simp [read_file, read_file_body, check_cache, probe_hit, probe_cache, hget,
              hfresh, hsafe]
          rw [heq]
          refine ⟨rfl, by simp [track_operation], by simp [track_operation],
            by simp [track_operation, hfile], ?_⟩
          intro p hp
          have hp2 : some ((c : String), now) = some p := by
            rw [← dictGet_dictSet_self (resolvePath st.base_dir filename)
              ((c : String), now) st.file_cache]
            simpa [track_operation] using hp
          rw [← Option.some.inj hp2]
        · rcases hl : cache_after_put (dictDel (resolvePath st.base_dir filename)
              st.file_cache) st.max_cache_size (resolvePath st.base_dir filename) c now
            with _ | l
          · have := cache_after_put_isSome (dictDel (resolvePath st.base_dir filename)
              st.file_cache) st.max_cache_size (resolvePath st.base_dir filename) c now hmax
            rw [hl] at this
            simp at this
          · have hgl := cache_after_put_get _ _ _ _ _ _ hl
            have heq : read_file hash st filename true now =
                ((true, c),
                  track_operation
                    { st with
                      file_cache := l,
                      file_checksums := checksums_after_verify st.file_checksums
                        (resolvePath st.base_dir filename) (hash (.text c)),
                      access_log := logAccess filename now st.access_log } "read" true) := by
              simp [read_file, read_file_body, check_cache, probe_hit, probe_cache, hget,
                hfresh, hsafe, existsPath, existsFile, hfile, verify_integrity, hl]
            rw [heq]
            refine ⟨rfl, by simp [track_operation], by simp [track_operation],
              by simp [track_operation, hfile], ?_⟩
            intro p hp
            have hp2 : some ((c : String), now) = some p := by
              rw [← hgl]
              simpa [track_operation] using hp
            rw [← Option.some.inj hp2]

/-- A fresh (non-append) write to a validated path with no directory in the
way succeeds, stores exactly the given text, and leaves no cache entry for
the path. -/
theorem write_file_success (hash : FContent → String) (st : FMState) (f c : String)
    (bk : Bool) (now : Nat)
    (hsafe : is_path_safe st.base_dir f = true)
    (hnd : st.dirs.contains (resolvePath st.base_dir f) = false)
    (hdd : pyDirname (resolvePath st.base_dir f) ≠ resolvePath st.base_dir f) :
    (write_file hash st f c false bk now).1.1 = true ∧
    (write_file hash st f c false bk now).2.base_dir = st.base_dir ∧
    (write_file hash st f c false bk now).2.max_cache_size = st.max_cache_size ∧
    dictGet (resolvePath st.base_dir f) (write_file hash st f c false bk now).2.files =
      some (.text c) ∧
    dictGet (resolvePath st.base_dir f)
      (write_file hash st f c false bk now).2.file_cache = none := by
  have hc : (addDir (pyDirname (resolvePath st.base_dir f)) st.dirs).contains
      (resolvePath st.base_dir f) = false := by
    rw [addDir_contains, hnd]
    simp [beq_eq_false_iff_ne.mpr (Ne.symm hdd)]
  have hdir2 : resolvePath st.base_dir f ∉
      addDir (pyDirname (resolvePath st.base_dir f)) st.dirs := by
    simpa using hc
  refine ⟨?_, ?_, ?_, ?_, ?_⟩ <;>
    simp [write_file, write_file_body, hsafe, existsDir, hc, hdir2, track_operation,
      dictGet_dictSet_self, write_file_apply_cache_none]

/-! ## Claim C3 -/

/-- Claim C3: for a validated path and any content, a successful
`write_file(p, c)` followed by `read_file(p)` returns `(true, c)` exactly,
whether or not the read uses the cache, and a further cached read after the
first one (which may be a cache hit or a fresh fetch, depending on the
clock) returns the same `(true, c)` — both paths agree. The side conditions
ask that a directory does not sit at the target and that the cache capacity
is positive (a zero-capacity manager makes every caching read fail in the
source). -/
theorem C3_write_read_roundtrip (hash : FContent → String) (st : FMState)
    (filename content : String) (uc : Bool) (now1 now2 now3 : Nat)
    (hsafe : is_path_safe st.base_dir filename = true)
    (hmax : 0 < st.max_cache_size)
    (hnd : st.dirs.contains (resolvePath st.base_dir filename) = false)
    (hdd : pyDirname (resolvePath st.base_dir filename) ≠ resolvePath st.base_dir filename) :
    (write_file hash st filename content false true now1).1.1 = true ∧
    (read_file hash (write_file hash st filename content false true now1).2
        filename uc now2).1 = (true, content) ∧
    (read_file hash
        (read_file hash (write_file hash st filename content false true now1).2
          filename uc now2).2 filename true now3).1 = (true, content) := by
  obtain ⟨hw1, hwbase, hwmax, hwfile, hwcache⟩ :=
    write_file_success hash st filename content true now1 hsafe hnd hdd
  have hsafe1 : is_path_safe
      (write_file hash st filename content false true now1).2.base_dir filename = true := by
    rw [hwbase]; exact hsafe
  have hmax1 : 0 < (write_file hash st filename content false true now1).2.max_cache_size := by
    rw [hwmax]; exact hmax
  have hfile1 : dictGet
      (resolvePath (write_file hash st filename content false true now1).2.base_dir filename)
      (write_file hash st filename content false true now1).2.files = some (.text content) := by
    rw [hwbase]; exact hwfile
  have hcache1 : ∀ p : String × Nat,
      dictGet (resolvePath (write_file hash st filename content false true now1).2.base_dir
        filename) (write_file hash st filename content false true now1).2.file_cache =
        some p → p.1 = content := by
    rw [hwbase, hwcache]
    intro p hp
    exact absurd hp (by simp)
  obtain ⟨hr1, hrbase, hrmax, hrfile, hrcache⟩ :=
    read_file_ok hash (write_file hash st filename content false true now1).2
      filename content uc now2 hsafe1 hmax1 hfile1 hcache1
  refine ⟨hw1, hr1, ?_⟩
  have hsafe2 : is_path_safe
      (read_file hash (write_file hash st filename content false true now1).2
        filename uc now2).2.base_dir filename = true := by
    rw [hrbase]; exact hsafe1
  have hmax2 : 0 < (read_file hash (write_file hash st filename content false true now1).2
      filename uc now2).2.max_cache_size := by
    rw [hrmax]; exact hmax1
  have hfile2 : dictGet
      (resolvePath (read_file hash (write_file hash st filename content false true now1).2
        filename uc now2).2.base_dir filename)
      (read_file hash (write_file hash st filename content false true now1).2
        filename uc now2).2.files = some (.text content) := by
    rw [hrbase]; exact hrfile
  have hcache2 : ∀ p : String × Nat,
      dictGet (resolvePath (read_file hash (write_file hash st filename content false true
        now1).2 filename uc now2).2.base_dir filename)
      (read_file hash (write_file hash st filename content false true now1).2
        filename uc now2).2.file_cache = some p → p.1 = content := by
    rw [hrbase]; exact hrcache
  exact (read_file_ok hash _ filename content true now3 hsafe2 hmax2 hfile2 hcache2).1

/-- Concrete instance of C3: writing `hello` to `notes/a.txt` in a fresh
manager and reading it back (with the cache, then again) returns `hello`
both times. -/
theorem C3_write_read_roundtrip_witness :
    (write_file modelHash (initState "/data") "notes/a.txt" "hello" false true 0).1.1 = true ∧
    (read_file modelHash
        (write_file modelHash (initState "/data") "notes/a.txt" "hello" false true 0).2
        "notes/a.txt" true 5).1 = (true, "hello") ∧
    (read_file modelHash
        (read_file modelHash
          (write_file modelHash (initState "/data") "notes/a.txt" "hello" false true 0).2
          "notes/a.txt" true 5).2 "notes/a.txt" true 400).1 = (true, "hello") :=
  C3_write_read_roundtrip modelHash (initState "/data") "notes/a.txt" "hello" true 0 5 400
    (by decide) (by decide) (by decide) (by decide)

/-! ## Claim C6 -/

/-- Claim C6, amended: every successful `list_files` result is sorted with
directory entries before file entries (the sort key is
`(type == 'file', name.lower())`, which orders non-files first) and
case-insensitively by name within each group, and when a pattern is supplied
only entries whose names match it are returned. -/
theorem C6_listing_sorted_and_filtered (st : FMState) (directory : String)
    (dirl : DirLookup) (incl : Bool) (pat : Option (String → Bool))
    (mime : String → Option String) (l : List FileMeta)
    (h : (list_files st directory dirl incl pat mime).1.2 = .items l) :
    (∀ m ∈ l, patMatch pat m.name = true) ∧
    l.Pairwise (fun a b => metaLe a b = true) := by
  unfold list_files list_files_body at h
  dsimp only at h
  split at h
  · simp at h
  · split at h
    · simp at h
    · simp at h
    · simp only [ListPayload.items.injEq] at h
      subst h
      constructor
      · intro m hm
        rw [sortBy_mem] at hm
        rcases List.mem_map.mp hm with ⟨e, he, rfl⟩
        rcases List.mem_filter.mp he with ⟨_, hcond⟩
        simp only [Bool.and_eq_true] at hcond
        simpa [mkMeta] using hcond.1.1
      · exact sortBy_pairwise metaLe metaLe_trans metaLe_total _

/-- Concrete instance of the amended C6: the `^2024.*` listing of a concrete
directory is pattern-filtered and sorted. -/
theorem C6_listing_sorted_and_filtered_witness :
    (∀ m ∈ c6Expected, patMatch (some (fun s => strStarts s "2024")) m.name = true) ∧
    c6Expected.Pairwise (fun a b => metaLe a b = true) :=
  C6_listing_sorted_and_filtered (initState "/data") "reports" (.entries c6Entries) false
    (some (fun s => strStarts s "2024")) (fun _ => none) c6Expected (by decide)

/-- Claim C6, counterexample: listing a directory holding the file `a.txt`
and the subdirectory `b` with `include_dirs=true` returns the directory entry
first and the file entry second, refuting the claimed
files-before-directories order. -/
theorem C6_directories_sort_first :
    (list_files (initState "/data") "reports" (.entries c6DirEntries) true none
        (fun _ => none)).1 =
      (true, .items
        [{ name := "b", path := "reports/b", size := 0, modified := 0, created := 0,
           ftype := "directory", mime_type := none, permissions := "755", checksum := none },
         { name := "a.txt", path := "reports/a.txt", size := 5, modified := 0, created := 0,
           ftype := "file", mime_type := none, permissions := "644", checksum := none }]) := by
  decide

/-! ## Claim C8 -/

theorem getMetric_congr (st st' : FMState) (k : String)
    (h : st'.operation_metrics = st.operation_metrics) : getMetric st' k = getMetric st k := by
  simp [getMetric, h]

/-- Claim C8, amended: the seven operations `read_file`, `write_file`,
`write_binary_file`, `read_binary_file`, `list_files`, `create_directory`
and `delete_file` each record exactly one metric for their kind in a
finally-style block, with the error count incremented exactly when the
operation body's internal success flag is still unset (which happens on every
failure and also on cache-hit reads, whose early return precedes the flag
assignment); `move_file`, `copy_file`, `get_file_info` and `search_files`
record no metrics at all. -/
theorem C8_metrics_recording
    (hash : FContent → String) (st : FMState) (f c src dst term : String)
    (uc ap bk mta incl : Bool) (b : List Nat) (now : Nat)
    (dirl : DirLookup) (pat : Option (String → Bool)) (mime : String → Option String)
    (fts : Option (List String)) :
    (getMetric (read_file hash st f uc now).2 "read" =
      ⟨(getMetric st "read").count + 1,
        (getMetric st "read").errors +
          (if (read_file_body hash st f uc now).succ then 0 else 1)⟩) ∧
    (getMetric (write_file hash st f c ap bk now).2 "write" =
      ⟨(getMetric st "write").count + 1,
        (getMetric st "write").errors +
          (if (write_file_body hash st f c ap bk now).succ then 0 else 1)⟩) ∧
    (getMetric (write_binary_file hash st f b bk now).2 "write_binary" =
      ⟨(getMetric st "write_binary").count + 1,
        (getMetric st "write_binary").errors +
          (if (write_binary_file_body hash st f b bk now).succ then 0 else 1)⟩) ∧
    (getMetric (read_binary_file st f).2 "read_binary" =
      ⟨(getMetric st "read_binary").count + 1,
        (getMetric st "read_binary").errors +
          (if (read_binary_file_body st f).succ then 0 else 1)⟩) ∧
    (getMetric (list_files st f dirl incl pat mime).2 "list" =
      ⟨(getMetric st "list").count + 1,
        (getMetric st "list").errors +
          (if (list_files_body st f dirl incl pat mime).succ then 0 else 1)⟩) ∧
    (getMetric (create_directory st f).2 "create_dir" =
      ⟨(getMetric st "create_dir").count + 1,
        (getMetric st "create_dir").errors +
          (if (create_directory_body st f).succ then 0 else 1)⟩) ∧
    (getMetric (delete_file st f mta now).2 "delete" =
      ⟨(getMetric st "delete").count + 1,
        (getMetric st "delete").errors +
          (if (delete_file_body st f mta now).succ then 0 else 1)⟩) ∧
    (move_file st src dst).2.operation_metrics = st.operation_metrics ∧
    (copy_file st src dst).2.operation_metrics = st.operation_metrics ∧
    (get_file_info st f).2.operation_metrics = st.operation_metrics ∧
    (search_files st term f fts).2.operation_metrics = st.operation_metrics := by
  refine ⟨?_, ?_, ?_, ?_, ?_, ?_, ?_, move_file_metrics st src dst,
    copy_file_metrics st src dst, by rw [get_file_info_state], by rw [search_files_state]⟩
  · simp only [read_file]
    rw [getMetric_track_self, getMetric_congr _ _ _ (read_file_body_metrics hash st f uc now)]
  · simp only [write_file]
    rw [getMetric_track_self,
      getMetric_congr _ _ _ (write_file_body_metrics hash st f c ap bk now)]
  · simp only [write_binary_file]
    rw [getMetric_track_self,
      getMetric_congr _ _ _ (write_binary_file_body_metrics hash st f b bk now)]
  · simp only [read_binary_file]
    rw [getMetric_track_self, getMetric_congr _ _ _ (read_binary_file_body_metrics st f)]
  · simp only [list_files]
    rw [getMetric_track_self,
      getMetric_congr _ _ _ (list_files_body_metrics st f dirl incl pat mime)]
  · simp only [create_directory]
    rw [getMetric_track_self, getMetric_congr _ _ _ (create_directory_body_metrics st f)]
  · simp only [delete_file]
    rw [getMetric_track_self, getMetric_congr _ _ _ (delete_file_body_metrics st f mta now)]

/-- Claim C8, counterexample: a failing `move_file` call records no metric at
all (its kind count stays absent instead of increasing by one), and a
successful cache-hit `read_file` increments the error count even though the
call succeeds, refuting both halves of the claim. -/
theorem C8_move_untracked_and_cache_hit_error :
    (move_file (initState "/data") "../x" "y").1 = (false, "Access denied: Invalid path") ∧
    (move_file (initState "/data") "../x" "y").2.operation_metrics = [] ∧
    (read_file modelHash c8State "a.txt" true 10).1 = (true, "hi") ∧
    getMetric (read_file modelHash c8State "a.txt" true 10).2 "read" = ⟨1, 1⟩ := by
  decide

/-! ## Claim C9 -/

/-- Claim C9, amended: after a successful `write_file` the checksum map is
persisted exactly when the map's resulting size is a multiple of ten — a
map-size condition, not an every-10th-update cadence — and `write_binary_file`
never triggers the periodic save. -/
theorem C9_save_on_size_multiple_of_ten
    (hash : FContent → String) (st : FMState) (f c fb : String) (ap bk bkb : Bool)
    (now nowb : Nat) (bb : List Nat) :
    ((write_file hash st f c ap bk now).1.1 = true →
      (write_file hash st f c ap bk now).2.checksum_saves =
        st.checksum_saves +
          (if (write_file hash st f c ap bk now).2.file_checksums.length % 10 == 0
           then 1 else 0)) ∧
    (write_binary_file hash st fb bb bkb nowb).2.checksum_saves = st.checksum_saves := by
  constructor
  · unfold write_file write_file_body
    dsimp only
    repeat' split
    all_goals intro h
    all_goals simp_all [track_operation, write_file_apply_checksum_saves]
  · unfold write_binary_file write_binary_file_body
    dsimp only
    repeat' split
    all_goals simp [track_operation]

/-- Concrete instance of the amended C9: one fresh write leaves the map at
size one, so no save happens, and a binary write never saves. -/
theorem C9_save_on_size_multiple_of_ten_witness :
    (write_file modelHash (initState "/data") "a.txt" "x" false true 0).2.checksum_saves =
      (initState "/data").checksum_saves +
        (if (write_file modelHash (initState "/data") "a.txt" "x" false true 0).2.file_checksums.length
              % 10 == 0
         then 1 else 0) ∧
    (write_binary_file modelHash (initState "/data") "b.bin" [1] true 0).2.checksum_saves =
      (initState "/data").checksum_saves := by
  have h := C9_save_on_size_multiple_of_ten modelHash (initState "/data") "a.txt" "x" "b.bin"
    false true true 0 0 [1]
  exact ⟨h.1 (by decide), h.2⟩

/-- Claim C9, counterexample: from a fresh manager, ten successive
successful checksum-updating writes (all to the same path, so the map size
stays one) trigger no checksum save at all, refuting the claimed
save-after-every-10th-update cadence — the persistence condition tests the
map's size. -/
theorem C9_ten_updates_no_save :
    tenWrites.2 = true ∧
    tenWrites.1.file_checksums.length = 1 ∧
    tenWrites.1.checksum_saves = 0 ∧
    tenWrites.1.persisted_checksums = [] := by
  decide

/-! ## Claim C2 -/

/-- Claim C2, amended: after every successful
`write_file(p, content, append, backup)` the stored checksum entry for the
resolved path equals the digest of the `content` argument; for
`append = false` the on-disk content is exactly that argument, so the stored
digest covers the resulting file, while for `append = true` the stored digest
covers only the appended fragment rather than the resulting on-disk
content. -/
theorem C2_checksum_of_argument (hash : FContent → String) (st : FMState)
    (f c : String) (ap bk : Bool) (now : Nat)
    (h : (write_file hash st f c ap bk now).1.1 = true) :
    dictGet (resolvePath st.base_dir f)
      (write_file hash st f c ap bk now).2.file_checksums = some (hash (.text c)) ∧
    (ap = false →
      dictGet (resolvePath st.base_dir f)
        (write_file hash st f c ap bk now).2.files = some (.text c)) := by
  revert h
  unfold write_file write_file_body
  dsimp only
  repeat' split
  all_goals intro h
  all_goals
    simp_all [track_operation, save_checksums, create_version, dictGet_dictSet_self]

/-- Concrete instance of the amended C2: a fresh overwrite stores the digest
of the written content, which is also the digest of the on-disk content. -/
theorem C2_checksum_of_argument_witness :
    dictGet (resolvePath (initState "/data").base_dir "a.txt")
      (write_file modelHash (initState "/data") "a.txt" "hello" false true 0).2.file_checksums =
      some (modelHash (.text "hello")) ∧
    (false = false →
      dictGet (resolvePath (initState "/data").base_dir "a.txt")
        (write_file modelHash (initState "/data") "a.txt" "hello" false true 0).2.files =
        some (.text "hello")) :=
  C2_checksum_of_argument modelHash (initState "/data") "a.txt" "hello" false true 0 (by decide)

/-- Claim C2, counterexample: appending ` world` to `a.txt` (which holds
`hello`) succeeds and leaves `hello world` on disk, but the stored checksum
is the digest of the appended fragment alone, which is not the digest of the
resulting on-disk content. -/
theorem C2_append_checksum_mismatch :
    (write_file modelHash c2Pre "a.txt" " world" true true 1).1.1 = true ∧
    dictGet (resolvePath "/data" "a.txt")
      (write_file modelHash c2Pre "a.txt" " world" true true 1).2.files =
      some (.text "hello world") ∧
    dictGet (resolvePath "/data" "a.txt")
      (write_file modelHash c2Pre "a.txt" " world" true true 1).2.file_checksums =
      some (modelHash (.text " world")) ∧
    modelHash (.text " world") ≠ modelHash (.text "hello world") := by
  decide

/-! ## Claim C5 -/

/-- Claim C5, amended: a successful `write_file` or `delete_file` of a path
leaves no cache entry for that path, but `write_binary_file` never touches
the cache, so a text-cache entry for a binarily overwritten path survives the
mutation. -/
theorem C5_cache_invalidation (hash : FContent → String) (st : FMState)
    (f fb c : String) (ap bk mta bkb : Bool) (now nowd nowb : Nat) (bb : List Nat) :
    ((write_file hash st f c ap bk now).1.1 = true →
      dictGet (resolvePath st.base_dir f)
        (write_file hash st f c ap bk now).2.file_cache = none) ∧
    ((delete_file st f mta nowd).1.1 = true →
      dictGet (resolvePath st.base_dir f)
        (delete_file st f mta nowd).2.file_cache = none) ∧
    (write_binary_file hash st fb bb bkb nowb).2.file_cache = st.file_cache := by
  refine ⟨?_, ?_, ?_⟩
  · unfold write_file write_file_body
    dsimp only
    repeat' split
    all_goals intro h
    all_goals
      simp_all [track_operation, write_file_apply_cache_none, dictGet_dictDel_self]
  · unfold delete_file delete_file_body
    dsimp only
    repeat' split
    all_goals intro h
    all_goals simp_all [track_operation, moveSubtree, dictGet_dictDel_self]
  · unfold write_binary_file write_binary_file_body
    dsimp only
    repeat' split
    all_goals simp [track_operation, create_version]

/-- Concrete instance of the amended C5: after a successful write and a
successful archive-delete no cache entry remains, and a binary write leaves
the cache untouched. -/
theorem C5_cache_invalidation_witness :
    dictGet (resolvePath c5State.base_dir "a.txt")
      (write_file modelHash c5State "a.txt" "y" false true 0).2.file_cache = none ∧
    dictGet (resolvePath c5State.base_dir "a.txt")
      (delete_file c5State "a.txt" true 0).2.file_cache = none ∧
    (write_binary_file modelHash c5State "b.bin" [1] true 0).2.file_cache =
      c5State.file_cache := by
  have h := C5_cache_invalidation modelHash c5State "a.txt" "b.bin" "y"
    false true true true 0 0 0 [1]
  exact ⟨h.1 (by decide), h.2.1 (by decide), h.2.2⟩

/-- Claim C5, counterexample: a successful `write_binary_file` to a cached
path leaves the cache entry in place, and a subsequent cached read within the
TTL serves the stale text instead of the new binary content. -/
theorem C5_binary_write_serves_stale_cache :
    (write_binary_file modelHash c5Stale "a.bin" [1, 2, 3] true 0).1.1 = true ∧
    dictGet "/data/a.bin"
      (write_binary_file modelHash c5Stale "a.bin" [1, 2, 3] true 0).2.file_cache =
      some ("old", 0) ∧
    dictGet "/data/a.bin"
      (write_binary_file modelHash c5Stale "a.bin" [1, 2, 3] true 0).2.files =
      some (.bin [1, 2, 3]) ∧
    (read_file modelHash (write_binary_file modelHash c5Stale "a.bin" [1, 2, 3] true 0).2
        "a.bin" true 100).1 = (true, "old") := by
  decide

end NexzaFS

